import Mathlib

/-!
Verification of the TDS solver service (revisions `main1.py`, `main4.py`,
`main5.py`) against its natural-language specification.

The Python sources are shallowly embedded: pure string manipulation is
translated directly (Python strings are sequences of code points, modelled
as `List Char` under Lean `String`); the fallible external libraries
(`httpx`, `fitz`, `json.loads`, `PIL`) are modelled by explicit outcome
parameters, and a Python exception escaping a function is modelled by
`Except.error`.
-/

/-- Model of Python `s[:n]` on strings: the first `n` code points. -/
def pySlice (s : String) (n : Nat) : String := String.mk (s.data.take n)

/-- Model of Python `str.lower()` (code-point-wise lowering; the uploads in
this service carry ASCII filenames, for which `Char.toLower` agrees with
Python). -/
def pyLower (s : String) : String := String.mk (s.data.map Char.toLower)

/-- Model of Python `str.isspace` on a single ASCII character
(space, tab, newline, carriage return, vertical tab, form feed). -/
def pyIsSpace (c : Char) : Bool :=
  c = ' ' || c = '\t' || c = '\n' || c = '\r' || c.toNat = 11 || c.toNat = 12

/-- Model of Python `str.strip()`: drop whitespace from both ends. -/
def pyStrip (s : String) : String :=
  String.mk (((s.data.dropWhile pyIsSpace).reverse.dropWhile pyIsSpace).reverse)

/-- `startsWithChars hay pat` holds when `pat` is an initial segment of `hay`. -/
def startsWithChars : List Char → List Char → Bool
  | _, [] => true
  | [], _ => false
  | c :: cs, d :: ds => c == d && startsWithChars cs ds

/-- `containsChars hay pat`: `pat` occurs contiguously inside `hay`
(model of Python `pat in hay`). -/
def containsChars : List Char → List Char → Bool
  | [], pat => pat.isEmpty
  | c :: cs, pat => startsWithChars (c :: cs) pat || containsChars cs pat

/-- Model of the Python substring test `pat in hay`. -/
def strContainsSub (hay pat : String) : Bool := containsChars hay.data pat.data

/-- Model of Python `hay.endswith(pat)`. -/
def strEndsWith (s pat : String) : Bool :=
  startsWithChars s.data.reverse pat.data.reverse

example : strEndsWith "photo.png" ".png" = true := by decide
example : strEndsWith "photo.png" ".pdf" = false := by decide
example : strContainsSub "abcd" "bc" = true := by decide
example : strContainsSub "abcd" "ca" = false := by decide
example : pySlice "abcdef" 3 = "abc" := by decide
example : pyLower "Photo.PNG" = "photo.png" := by decide
example : pyStrip "  a b\n" = "a b" := by decide

/-! ## JSON values and Python `json.dumps(_, indent=2)` -/

/-- JSON values as produced by Python `json.loads` (numeric literals are
modelled as integers; the claims under verification never depend on float
formatting). -/
inductive Json where
  | null
  | bool (b : Bool)
  | num (n : Int)
  | str (s : String)
  | arr (items : List Json)
  | obj (fields : List (String × Json))

/-- One hexadecimal digit, lowercase, as emitted by Python's `\uXXXX` escapes. -/
def hexDigit (n : Nat) : Char :=
  if n < 10 then Char.ofNat (48 + n) else Char.ofNat (87 + n)

/-- Four-digit lowercase hexadecimal rendering of `n < 0x10000`. -/
def hex4 (n : Nat) : String :=
  String.mk [hexDigit (n / 4096 % 16), hexDigit (n / 256 % 16),
             hexDigit (n / 16 % 16), hexDigit (n % 16)]

/-- Escaping of a single character inside a JSON string literal, following
Python `json.dumps` with its default `ensure_ascii=True` (non-ASCII code
points become `\uXXXX`, astral ones a surrogate pair). -/
def json_escape_char (c : Char) : String :=
  if c = '"' then "\\\""
  else if c = '\\' then "\\\\"
  else if c = '\n' then "\\n"
  else if c = '\t' then "\\t"
  else if c = '\r' then "\\r"
  else if c.toNat = 8 then "\\b"
  else if c.toNat = 12 then "\\f"
  else if c.toNat < 32 then "\\u" ++ hex4 c.toNat
  else if c.toNat ≤ 126 then String.mk [c]
  else if c.toNat < 65536 then "\\u" ++ hex4 c.toNat
  else
    "\\u" ++ hex4 (55296 + (c.toNat - 65536) / 1024) ++
    "\\u" ++ hex4 (56320 + (c.toNat - 65536) % 1024)

/-- Escaping of a JSON string body, per Python `json.dumps`. -/
def json_escape_string (s : String) : String :=
  String.join (s.data.map json_escape_char)

/-- `level * 2` spaces, the indentation Python `json.dumps(_, indent=2)`
puts before an element nested at depth `level`. -/
def jsonPad (level : Nat) : String := String.mk (List.replicate (2 * level) ' ')

mutual

/-- Rendering of one JSON value at nesting depth `level`, following Python
`json.dumps(value, indent=2)`. -/
def json_dumps_val : Json → Nat → String
  | .null, _ => "null"
  | .bool true, _ => "true"
  | .bool false, _ => "false"
  | .num n, _ => toString n
  | .str s, _ => "\"" ++ json_escape_string s ++ "\""
  | .arr [], _ => "[]"
  | .arr (x :: xs), level =>
      "[\n" ++ json_dumps_items (x :: xs) (level + 1) ++ "\n" ++ jsonPad level ++ "]"
  | .obj [], _ => "\x7b\x7d"
  | .obj (f :: fs), level =>
      "\x7b\n" ++ json_dumps_fields (f :: fs) (level + 1) ++ "\n" ++ jsonPad level ++ "\x7d"

/-- Array items, each on its own indented line, comma-separated. -/
def json_dumps_items : List Json → Nat → String
  | [], _ => ""
  | [x], level => jsonPad level ++ json_dumps_val x level
  | x :: y :: ys, level =>
      jsonPad level ++ json_dumps_val x level ++ ",\n" ++ json_dumps_items (y :: ys) level

/-- Object fields, each on its own indented line as `"key": value`. -/
def json_dumps_fields : List (String × Json) → Nat → String
  | [], _ => ""
  | [(k, v)], level =>
      jsonPad level ++ "\"" ++ json_escape_string k ++ "\": " ++ json_dumps_val v level
  | (k, v) :: g :: gs, level =>
      jsonPad level ++ "\"" ++ json_escape_string k ++ "\": " ++ json_dumps_val v level ++
      ",\n" ++ json_dumps_fields (g :: gs) level

end

/-- Model of Python `json.dumps(value, indent=2)`. -/
def json_dumps_indent2 (j : Json) : String := json_dumps_val j 0

example : json_dumps_indent2 (Json.obj [("a", Json.num 1)]) = "\x7b\n  \"a\": 1\n\x7d" := by
  decide
example : json_dumps_indent2 (Json.arr [Json.num 1, Json.num 2]) = "[\n  1,\n  2\n]" := by
  decide

/-! ## The upstream LLM proxy and uploaded files -/

/-- Outcome of the `httpx.post` call to the LLM proxy, as observed by
`get_llm_answer`'s `try` block.

* `response status body content`: the POST returned an HTTP response with
  `status_code = status` and `text = body`; `content` is
  `some c` when evaluating `response.json()["choices"][0]["message"]["content"]`
  succeeds with the string `c`, and `none` when that expression raises
  (body not JSON, or the keys/index missing).
* `timedOut msg`: the POST raised `httpx.TimeoutException` whose `str` is `msg`.
* `requestError msg`: the POST raised another `httpx.RequestError` whose
  `str` is `msg`.  (In `httpx`, `TimeoutException` is itself a
  `RequestError` subclass, which matters for `main5.py`: it keeps the two
  cases distinguishable here while letting a handler treat them alike.) -/
inductive UpstreamResult where
  | response (status : Nat) (body : String) (content : Option String)
  | timedOut (msg : String)
  | requestError (msg : String)

/-- The environment behind `httpx.post`: what outcome the network produces
for each user-message prompt the service sends. -/
def Upstream : Type := String → UpstreamResult

/-- An uploaded multipart file as the handlers see it.  `decoded` is
`file_bytes.decode("utf-8", errors="ignore")` (total, never raises);
`pdfText` is the text `fitz` extracts from the bytes (`none` when `fitz`
raises); `parsed` is `json.loads(decoded)` (`none` when it raises);
`imageOk` records whether `PIL` can open, convert and re-save the bytes. -/
structure UploadedFile where
  filename : String
  content_type : String
  decoded : String
  pdfText : Option String
  parsed : Option Json
  imageOk : Bool

/-! ## Revision `main1.py` -/

/-- The prompt of `main1.get_llm_answer` (line 133):
`question if not context else f"Context: {context}\nQuestion: {question}"`. -/
def main1_prompt (question context : String) : String :=
  if context = "" then question
  else "Context: " ++ context ++ "\nQuestion: " ++ question

/-- `main1.get_llm_answer` (lines 126-158).  `Except.error` models an
exception escaping to the caller: on HTTP 200 the code indexes into
`response.json()` with no handler for a JSON or key error. -/
def main1_get_llm_answer (question context : String) (up : Upstream) :
    Except String String :=
  match up (main1_prompt question context) with
  | .response status body content =>
      if status = 200 then
        match content with
        | some c => .ok c
        | none => .error "unhandled exception while reading response JSON"
      else if status = 429 then
        .ok "AIPROXY monthly request limit reached. Try again next month!"
      else if status = 403 then
        .ok "AIPROXY cost limit exceeded ($0.5). Requests are blocked!"
      else
        .ok ("AIPROXY Error " ++ toString status ++ ": " ++ body)
  | .timedOut _ => .ok "AIPROXY request timed out. Try again later or simplify your question."
  | .requestError msg => .ok ("Failed to connect to AIPROXY: " ++ msg)

/-- `main1.solve_question` (lines 160-173).  The two non-LLM integrations
(GitHub lookup, Vercel deployment) are external collaborators; their answer
strings enter as the parameters `githubAnswer` and `vercelAnswer`.  The
uploaded `file` parameter is declared by the endpoint but the body never
touches it. -/
def main1_solve_question (question : String) (file : Option UploadedFile)
    (githubAnswer vercelAnswer : String) (up : Upstream) : Except String String :=
  if strContainsSub question "GitHub action" && strContainsSub question "repository URL" then
    .ok githubAnswer
  else if strContainsSub question "Find the Vercel API URL" then
    .ok vercelAnswer
  else
    main1_get_llm_answer question "" up

/-! ## Revision `main4.py` -/

/-- `main4.extract_text_from_pdf` (lines 40-51), shared verbatim with
`main5.extract_text_from_pdf` (lines 46-54): the extracted page text
(`pdfText`, `none` when `fitz` raises) truncated to 3000 characters, or
`""` on failure. -/
def extract_text_from_pdf (pdfText : Option String) : String :=
  match pdfText with
  | some text => pySlice text 3000
  | none => ""

/-- `main4.extract_text_from_jsonl` (lines 53-63): raw lossy UTF-8 decode
truncated to 3000 characters (the decode with `errors="ignore"` is total,
so the `except` branch is unreachable). -/
def extract_text_from_jsonl (decoded : String) : String := pySlice decoded 3000

/-- `main4.truncate_text` (lines 65-69). -/
def truncate_text (text : String) (max_length : Nat) : String :=
  if text.length ≤ max_length then text else pySlice text max_length ++ "..."

/-- `main4.build_enhanced_prompt` (lines 71-81). -/
def build_enhanced_prompt (question context : String) : String :=
  "Below is the chain-of-thought reasoning process:\n" ++
  (if context = "" then "" else "Context:\n" ++ context ++ "\n\n") ++
  "Question: " ++ question ++ "\n\n" ++
  "Now, think step-by-step through the problem and then provide only the final answer."

/-- The prompt `main4.get_llm_answer` builds (lines 92-97): question capped
at 2500, context capped at 3000 (only when non-empty), then templated. -/
def main4_prompt (question context : String) : String :=
  build_enhanced_prompt (truncate_text question 2500)
    (if context = "" then "" else truncate_text context 3000)

/-- `main4.get_llm_answer` (lines 83-122).  As in `main1`, the HTTP-200
path reads `response.json()["choices"][0]["message"]["content"]` with no
surrounding handler, so a malformed body raises (`Except.error`). -/
def main4_get_llm_answer (question context : String) (up : Upstream) :
    Except String String :=
  match up (main4_prompt question context) with
  | .response status body content =>
      if status = 200 then
        match content with
        | some c => .ok (pyStrip c)
        | none => .error "unhandled exception while reading response JSON"
      else if status = 429 then
        .ok "AIPROXY monthly request limit reached. Try again next month!"
      else if status = 403 then
        .ok "AIPROXY cost limit exceeded. Requests are blocked!"
      else
        .ok ("AIPROXY Error " ++ toString status ++ ": " ++ body)
  | .timedOut _ => .ok "AIPROXY request timed out. Try again later."
  | .requestError msg => .ok ("Failed to connect to AIPROXY: " ++ msg)

/-- The `context` computed by `main4.solve_question` (lines 133-146):
dispatch on the lowercased filename / declared content type.  Every branch
is exception-free in the model (decode is total, the extractors catch their
own errors), matching the handler's enclosing `try`. -/
def main4_context (file : Option UploadedFile) : String :=
  match file with
  | none => ""
  | some f =>
      let filename := pyLower f.filename
      if strEndsWith filename ".pdf" || f.content_type == "application/pdf" then
        extract_text_from_pdf f.pdfText
      else if strEndsWith filename ".jsonl" || strEndsWith filename ".json" then
        extract_text_from_jsonl f.decoded
      else
        pySlice f.decoded 3000

/-- `main4.solve_question` (lines 124-149): extract context, then answer
via the LLM client. -/
def main4_solve_question (question : String) (file : Option UploadedFile)
    (up : Upstream) : Except String String :=
  main4_get_llm_answer question (main4_context file) up

/-! ## Revision `main5.py` -/

/-- `main5.extract_text_from_json` (lines 56-63): parse the lossily decoded
bytes as JSON (`parsed`, `none` when `json.loads` raises), pretty-print with
2-space indentation, truncate to 3000 characters; `""` on parse failure. -/
def extract_text_from_json (parsed : Option Json) : String :=
  match parsed with
  | some data => pySlice (json_dumps_indent2 data) 3000
  | none => ""

/-- `main5.extract_text_from_txt` (lines 65-71): lossy UTF-8 decode
truncated to 3000 characters (total, the `except` branch is unreachable). -/
def extract_text_from_txt (decoded : String) : String := pySlice decoded 3000

/-- `main5.process_image` (lines 75-88): when `PIL` succeeds the artifact
is written to `os.path.join("processed_images", f"processed_{filename}")`
and that path is returned; on failure the function returns `""`. -/
def process_image (imageOk : Bool) (filename : String) : String :=
  if imageOk then "processed_images/processed_" ++ filename else ""

/-- The prompt of `main5.get_llm_answer` (line 99); note the `Context:`
block is emitted unconditionally, even for an empty context. -/
def main5_prompt (question context : String) : String :=
  "Context:\n" ++ context ++ "\n\nQuestion: " ++ question ++
  "\n\nProvide the most accurate answer."

/-- `main5.get_llm_answer` (lines 92-117).  There is no dedicated 429/403
or timeout branch: every non-200 status maps to `Error {code}: {body}` and
every `httpx.RequestError` — timeouts included, since
`httpx.TimeoutException` subclasses it — maps to `Failed to connect to
LLM: {e}`.  The HTTP-200 path indexes into `response.json()` unprotected,
as in the other revisions. -/
def main5_get_llm_answer (question context : String) (up : Upstream) :
    Except String String :=
  match up (main5_prompt question context) with
  | .response status body content =>
      if status = 200 then
        match content with
        | some c => .ok (pyStrip c)
        | none => .error "unhandled exception while reading response JSON"
      else
        .ok ("Error " ++ toString status ++ ": " ++ body)
  | .timedOut msg => .ok ("Failed to connect to LLM: " ++ msg)
  | .requestError msg => .ok ("Failed to connect to LLM: " ++ msg)

/-- HTTP response of `main5.process_file`: the JSON answer envelope, a
binary `FileResponse` (path on disk, media type, download filename), an
`HTTPException` (status, detail), or an exception escaping the handler. -/
inductive Main5Response where
  | jsonAnswer (answer : String)
  | fileResponse (path : String) (mediaType : String) (downloadName : String)
  | httpError (status : Nat) (detail : String)
  | raised (msg : String)
deriving DecidableEq

/-- The `AnswerResponse(answer=get_llm_answer(question, context))` tail of
`main5.process_file` (lines 131 and 152-154), with an uncaught exception
from the LLM client escaping the handler. -/
def main5_llm_response (question context : String) (up : Upstream) : Main5Response :=
  match main5_get_llm_answer question context up with
  | .ok a => .jsonAnswer a
  | .error e => .raised e

/-- `main5.process_file` (lines 121-154): dispatch on the lowercased
filename (and declared content type), short-circuiting to a binary
`FileResponse` for images, HTTP 400 for unsupported extensions, HTTP 500
for image-processing failure, and the LLM path otherwise. -/
def main5_process_file (question : String) (file : Option UploadedFile)
    (up : Upstream) : Main5Response :=
  match file with
  | none => main5_llm_response question "" up
  | some f =>
      let filename := pyLower f.filename
      if strEndsWith filename ".pdf" || f.content_type == "application/pdf" then
        main5_llm_response question (extract_text_from_pdf f.pdfText) up
      else if strEndsWith filename ".json" || strEndsWith filename ".jsonl" then
        main5_llm_response question (extract_text_from_json f.parsed) up
      else if strEndsWith filename ".txt" then
        main5_llm_response question (extract_text_from_txt f.decoded) up
      else if strEndsWith filename ".png" || strEndsWith filename ".jpeg" ||
              strEndsWith filename ".jpg" || strEndsWith filename ".webp" then
        let output_path := process_image f.imageOk filename
        if output_path ≠ "" then
          .fileResponse output_path "image/png" ("processed_" ++ filename)
        else
          .httpError 500 "Error processing image"
      else
        .httpError 400 "Unsupported file format"

/-! ## Auxiliary lemmas and fixtures -/

/-- Slicing with `[:n]` yields at most `n` characters. -/
theorem pySlice_length (s : String) (n : Nat) : (pySlice s n).length ≤ n := by
  simp only [pySlice, String.length, List.length_take]
  exact Nat.min_le_left _ _

/-- A list starting with the pattern `a :: as` starts with the character `a`. -/
theorem startsWithChars_head {l : List Char} {a : Char} {as : List Char}
    (h : startsWithChars l (a :: as) = true) : ∃ t, l = a :: t := by
  cases l with
  | nil => simp [startsWithChars] at h
  | cons c cs =>
      refine ⟨cs, ?_⟩
      simp only [startsWithChars, Bool.and_eq_true, beq_iff_eq] at h
      rw [h.1]

/-- Two suffix patterns whose final characters differ cannot both match:
knowing `s.endswith(p₁)` refutes `s.endswith(p₂)`. -/
theorem strEndsWith_false_of_head (s p₁ p₂ : String) (c d : Char)
    (cs ds : List Char) (h₁ : p₁.data.reverse = c :: cs)
    (h₂ : p₂.data.reverse = d :: ds) (hne : (d == c) = false)
    (h : strEndsWith s p₁ = true) : strEndsWith s p₂ = false := by
  unfold strEndsWith at h ⊢
  rw [h₁] at h
  rw [h₂]
  obtain ⟨t, ht⟩ := startsWithChars_head h
  rw [ht]
  simp only [startsWithChars, Bool.and_eq_false_iff]
  left
  simp only [beq_eq_false_iff_ne, ne_eq] at hne ⊢
  exact fun hcd => hne hcd.symm

/-- An upstream outcome on which the revisions' HTTP-200 JSON indexing
cannot raise: anything except a 200 response whose body lacks
`choices[0].message.content`. -/
def goodResp : UpstreamResult → Bool
  | .response status _ content => if status = 200 then content.isSome else true
  | _ => true

/-- An upstream environment that echoes the prompt it is sent back as the
model's answer; used to observe which context a handler composed. -/
def echoUp : Upstream := fun p => .response 200 "" (some p)

/-- A `.json` upload whose bytes `\x7b"a":1\x7d` are valid JSON. -/
def fJson : UploadedFile :=
  { filename := "data.json"
    content_type := "application/json"
    decoded := "\x7b\"a\":1\x7d"
    pdfText := none
    parsed := some (Json.obj [("a", Json.num 1)])
    imageOk := false }

/-- A `.jsonl` upload with two JSON documents on separate lines; the whole
text is not a single valid JSON document, so `json.loads` raises on it. -/
def fJsonl : UploadedFile :=
  { filename := "data.jsonl"
    content_type := "application/jsonl"
    decoded := "\x7b\"a\":1\x7d\n\x7b\"a\":2\x7d"
    pdfText := none
    parsed := none
    imageOk := false }

/-- The PDF extractor output is capped at 3000 characters. -/
theorem extract_text_from_pdf_length (p : Option String) :
    (extract_text_from_pdf p).length ≤ 3000 := by
  cases p with
  | none => decide
  | some t => exact pySlice_length t 3000

/-- The JSON extractor output is capped at 3000 characters. -/
theorem extract_text_from_json_length (j : Option Json) :
    (extract_text_from_json j).length ≤ 3000 := by
  cases j with
  | none => decide
  | some d => exact pySlice_length (json_dumps_indent2 d) 3000

/-- Every branch of `main4.solve_question`'s context assignment is capped
at 3000 characters. -/
theorem main4_context_length (file : Option UploadedFile) :
    (main4_context file).length ≤ 3000 := by
  cases file with
  | none => decide
  | some f =>
      simp only [main4_context]
      split
      · exact extract_text_from_pdf_length f.pdfText
      · split
        · exact pySlice_length f.decoded 3000
        · exact pySlice_length f.decoded 3000

/-! ## Claims -/

/-- Claim C4 (confirmed): every extraction path — PDF, JSON/JSONL, plain
text, and the generic fallback branch of `main4.solve_question` — yields a
context of length at most 3000 characters, and a failed extraction (PDF
parse failure, JSON parse failure) yields the empty string, never an
absent value or an escaping exception (the extractors are total). -/
theorem extraction_always_capped_and_nonfatal :
    ∀ (p : Option String) (d : String) (j : Option Json) (file : Option UploadedFile),
      (extract_text_from_pdf p).length ≤ 3000 ∧
      extract_text_from_pdf none = "" ∧
      (extract_text_from_jsonl d).length ≤ 3000 ∧
      (extract_text_from_json j).length ≤ 3000 ∧
      extract_text_from_json none = "" ∧
      (extract_text_from_txt d).length ≤ 3000 ∧
      (main4_context file).length ≤ 3000 := by
  intro p d j file
  exact ⟨extract_text_from_pdf_length p, rfl, pySlice_length d 3000,
         extract_text_from_json_length j, rfl, pySlice_length d 3000,
         main4_context_length file⟩

/-- Claim C2 (amended): in `main1` and `main4`, HTTP 429 yields the fixed
"monthly request limit reached" diagnostic and HTTP 403 the fixed "cost
limit exceeded" diagnostic, never raising; in `main5`, whose client has no
dedicated 429/403 branches, both fall into the generic
`Error {code}: {body}` diagnostic. -/
theorem llm_429_403_fallbacks :
    ∀ (q ctx body : String) (content : Option String),
      main1_get_llm_answer q ctx (fun _ => .response 429 body content) =
        .ok "AIPROXY monthly request limit reached. Try again next month!" ∧
      main1_get_llm_answer q ctx (fun _ => .response 403 body content) =
        .ok "AIPROXY cost limit exceeded ($0.5). Requests are blocked!" ∧
      main4_get_llm_answer q ctx (fun _ => .response 429 body content) =
        .ok "AIPROXY monthly request limit reached. Try again next month!" ∧
      main4_get_llm_answer q ctx (fun _ => .response 403 body content) =
        .ok "AIPROXY cost limit exceeded. Requests are blocked!" ∧
      main5_get_llm_answer q ctx (fun _ => .response 429 body content) =
        .ok ("Error 429: " ++ body) ∧
      main5_get_llm_answer q ctx (fun _ => .response 403 body content) =
        .ok ("Error 403: " ++ body) := by
  intro q ctx body content
  exact ⟨rfl, rfl, rfl, rfl, rfl, rfl⟩

/-- Claim C2 counterexample: `main5.get_llm_answer` answers a forced 429
with the generic status diagnostic, which does not contain the "monthly
request limit reached" text the claim requires. -/
theorem main5_429_lacks_monthly_limit_string :
    main5_get_llm_answer "q" "" (fun _ => .response 429 "quota" none) =
      .ok "Error 429: quota" ∧
    strContainsSub "Error 429: quota" "monthly request limit reached" = false :=
  ⟨rfl, rfl⟩

/-- Claim C3 (amended): a transport-level timeout yields the fixed
"request timed out" diagnostic in `main1` and `main4`; in `main5`, whose
only handler is the `httpx.RequestError` catch-all (of which
`TimeoutException` is a subclass), a timeout yields the same generic
"Failed to connect to LLM" diagnostic as any other transport error.  No
revision raises on a timeout. -/
theorem llm_timeout_fallbacks :
    ∀ (q ctx msg : String),
      main1_get_llm_answer q ctx (fun _ => .timedOut msg) =
        .ok "AIPROXY request timed out. Try again later or simplify your question." ∧
      main4_get_llm_answer q ctx (fun _ => .timedOut msg) =
        .ok "AIPROXY request timed out. Try again later." ∧
      main5_get_llm_answer q ctx (fun _ => .timedOut msg) =
        .ok ("Failed to connect to LLM: " ++ msg) ∧
      main5_get_llm_answer q ctx (fun _ => .requestError msg) =
        .ok ("Failed to connect to LLM: " ++ msg) := by
  intro q ctx msg
  exact ⟨rfl, rfl, rfl, rfl⟩

/-- Claim C3 counterexample: on a forced timeout, `main5.get_llm_answer`
returns the generic connection-failure diagnostic, which does not contain
the "request timed out" text the claim requires. -/
theorem main5_timeout_gives_generic_string :
    main5_get_llm_answer "q" "" (fun _ => .timedOut "ReadTimeout") =
      .ok "Failed to connect to LLM: ReadTimeout" ∧
    strContainsSub "Failed to connect to LLM: ReadTimeout" "request timed out" = false :=
  ⟨rfl, rfl⟩

/-- Claim C1 (amended): for every prompt, `get_llm_answer` (all three
revisions) returns a string without raising on every upstream outcome
*except* an HTTP 200 response whose body does not yield
`choices[0].message.content`; on such a response the unguarded
`response.json()[...]` indexing raises to the caller. -/
theorem llm_client_total_on_parsable_outcomes :
    ∀ (q ctx : String) (up : Upstream), (∀ p, goodResp (up p) = true) →
      (∃ s, main1_get_llm_answer q ctx up = .ok s) ∧
      (∃ s, main4_get_llm_answer q ctx up = .ok s) ∧
      (∃ s, main5_get_llm_answer q ctx up = .ok s) := by
  intro q ctx up hgood
  refine ⟨?_, ?_, ?_⟩
  · unfold main1_get_llm_answer
    have hg := hgood (main1_prompt q ctx)
    cases hu : up (main1_prompt q ctx) with
    | response status body content =>
        rw [hu] at hg
        simp only [goodResp] at hg
        by_cases hs : status = 200
        · subst hs
          rw [if_pos rfl] at hg
          obtain ⟨c, hc⟩ := Option.isSome_iff_exists.mp hg
          subst hc
          exact ⟨c, by simp⟩
        · by_cases h429 : status = 429 <;> by_cases h403 : status = 403 <;>
            simp [hs, h429, h403]
    | timedOut m => exact ⟨_, rfl⟩
    | requestError m => exact ⟨_, rfl⟩
  · unfold main4_get_llm_answer
    have hg := hgood (main4_prompt q ctx)
    cases hu : up (main4_prompt q ctx) with
    | response status body content =>
        rw [hu] at hg
        simp only [goodResp] at hg
        by_cases hs : status = 200
        · subst hs
          rw [if_pos rfl] at hg
          obtain ⟨c, hc⟩ := Option.isSome_iff_exists.mp hg
          subst hc
          exact ⟨pyStrip c, by simp⟩
        · by_cases h429 : status = 429 <;> by_cases h403 : status = 403 <;>
            simp [hs, h429, h403]
    | timedOut m => exact ⟨_, rfl⟩
    | requestError m => exact ⟨_, rfl⟩
  · unfold main5_get_llm_answer
    have hg := hgood (main5_prompt q ctx)
    cases hu : up (main5_prompt q ctx) with
    | response status body content =>
        rw [hu] at hg
        simp only [goodResp] at hg
        by_cases hs : status = 200
        · subst hs
          rw [if_pos rfl] at hg
          obtain ⟨c, hc⟩ := Option.isSome_iff_exists.mp hg
          subst hc
          exact ⟨pyStrip c, by simp⟩
        · simp [hs]
    | timedOut m => exact ⟨_, rfl⟩
    | requestError m => exact ⟨_, rfl⟩

/-- Witness for the amended claim C1 at a concrete outcome. -/
theorem llm_client_total_on_parsable_outcomes_witness :
    (∃ s, main1_get_llm_answer "hi" "" (fun _ => .timedOut "t") = .ok s) ∧
    (∃ s, main4_get_llm_answer "hi" "" (fun _ => .timedOut "t") = .ok s) ∧
    (∃ s, main5_get_llm_answer "hi" "" (fun _ => .timedOut "t") = .ok s) :=
  llm_client_total_on_parsable_outcomes "hi" "" (fun _ => .timedOut "t") (fun _ => rfl)

/-- Claim C1 counterexample: an HTTP 200 response whose body has no
`choices[0].message.content` makes all three revisions raise to the caller
instead of returning a string. -/
theorem llm_client_raises_on_malformed_200_body :
    main1_get_llm_answer "q" "" (fun _ => .response 200 "not json" none) =
      .error "unhandled exception while reading response JSON" ∧
    main4_get_llm_answer "q" "" (fun _ => .response 200 "not json" none) =
      .error "unhandled exception while reading response JSON" ∧
    main5_get_llm_answer "q" "" (fun _ => .response 200 "not json" none) =
      .error "unhandled exception while reading response JSON" :=
  ⟨rfl, rfl, rfl⟩

/-- Claim C7 (amended): with an empty extracted context, the composed
prompt is the question alone in `main1` and a templated block with no
context section in `main4`; but in `main5` the template emits the
`Context:` header unconditionally, so the prompt carries an (empty)
context section even when no context was extracted. -/
theorem empty_context_prompt_shapes :
    ∀ q : String,
      main1_prompt q "" = q ∧
      build_enhanced_prompt q "" =
        "Below is the chain-of-thought reasoning process:\nQuestion: " ++ q ++ "\n\n" ++
        "Now, think step-by-step through the problem and then provide only the final answer." ∧
      main5_prompt q "" =
        "Context:\n\n\nQuestion: " ++ q ++ "\n\nProvide the most accurate answer." := by
  intro q
  exact ⟨rfl, rfl, rfl⟩

/-- Claim C7 counterexample: the `main5` prompt composed from an empty
context still contains a `Context:` section and is not the question
alone. -/
theorem main5_empty_context_prompt_has_context_header :
    strContainsSub (main5_prompt "hi" "") "Context:" = true ∧
    main5_prompt "hi" "" ≠ "hi" := by
  exact ⟨rfl, by decide⟩

/-- Claim C9 (confirmed): `main1.solve_question` never reads the uploaded
file.  For any question containing neither trigger-phrase pair, two
requests with different uploads (or none) produce identical responses,
both through the LLM path with the same prompt — and that prompt is the
question alone, since the handler passes the default empty context. -/
theorem main1_response_independent_of_upload :
    ∀ (q : String) (f₁ f₂ : Option UploadedFile) (g v : String) (up : Upstream),
      (strContainsSub q "GitHub action" && strContainsSub q "repository URL") = false →
      strContainsSub q "Find the Vercel API URL" = false →
      main1_solve_question q f₁ g v up = main1_solve_question q f₂ g v up ∧
      main1_solve_question q f₁ g v up = main1_get_llm_answer q "" up ∧
      main1_prompt q "" = q := by
  intro q f₁ f₂ g v up hG hV
  simp [main1_solve_question, hG, hV, main1_prompt]

/-- Witness for claim C9 at a concrete question and two concrete uploads. -/
theorem main1_response_independent_of_upload_witness :
    main1_solve_question "What is 2+2?" none "g" "v" echoUp =
      main1_solve_question "What is 2+2?" (some fJson) "g" "v" echoUp ∧
    main1_solve_question "What is 2+2?" none "g" "v" echoUp =
      main1_get_llm_answer "What is 2+2?" "" echoUp ∧
    main1_prompt "What is 2+2?" "" = "What is 2+2?" :=
  main1_response_independent_of_upload "What is 2+2?" none (some fJson) "g" "v" echoUp
    (by decide) (by decide)

/-- Claim C5 (amended): for a `.json` upload, the `main5` revision behaves
as the claim says — valid JSON is re-serialized with 2-space indentation
and truncated to at most 3000 characters, invalid JSON yields the empty
context without raising — but the `main4` revision routes `.json` uploads
through `extract_text_from_jsonl`, so its context is the raw decoded text
truncated to 3000 characters, not a re-serialization. -/
theorem json_upload_context_per_revision :
    ∀ (q : String) (f : UploadedFile) (up : Upstream) (j : Json),
      strEndsWith (pyLower f.filename) ".json" = true →
      f.content_type ≠ "application/pdf" →
      f.parsed = some j →
      main5_process_file q (some f) up =
        main5_llm_response q (pySlice (json_dumps_indent2 j) 3000) up ∧
      extract_text_from_json (some j) = pySlice (json_dumps_indent2 j) 3000 ∧
      (extract_text_from_json (some j)).length ≤ 3000 ∧
      extract_text_from_json none = "" ∧
      main4_solve_question q (some f) up =
        main4_get_llm_answer q (pySlice f.decoded 3000) up := by
  intro q f up j hjson hct hp
  have hpdf : strEndsWith (pyLower f.filename) ".pdf" = false :=
    strEndsWith_false_of_head _ ".json" ".pdf" 'n' 'f' _ _ rfl rfl rfl hjson
  have hctb : (f.content_type == "application/pdf") = false := by
    simp only [beq_eq_false_iff_ne, ne_eq]
    exact hct
  refine ⟨?_, rfl, extract_text_from_json_length (some j), rfl, ?_⟩
  · simp [main5_process_file, hpdf, hctb, hjson, hp, extract_text_from_json]
  · simp [main4_solve_question, main4_context, hpdf, hctb, hjson, extract_text_from_jsonl]

/-- Witness for the amended claim C5 at a concrete `.json` upload. -/
theorem json_upload_context_per_revision_witness :
    main5_process_file "q" (some fJson) echoUp =
      main5_llm_response "q"
        (pySlice (json_dumps_indent2 (Json.obj [("a", Json.num 1)])) 3000) echoUp ∧
    extract_text_from_json (some (Json.obj [("a", Json.num 1)])) =
      pySlice (json_dumps_indent2 (Json.obj [("a", Json.num 1)])) 3000 ∧
    (extract_text_from_json (some (Json.obj [("a", Json.num 1)]))).length ≤ 3000 ∧
    extract_text_from_json none = "" ∧
    main4_solve_question "q" (some fJson) echoUp =
      main4_get_llm_answer "q" (pySlice fJson.decoded 3000) echoUp :=
  json_upload_context_per_revision "q" fJson echoUp (Json.obj [("a", Json.num 1)])
    (by decide) (by decide) rfl

/-- Claim C5 counterexample: in `main4`, a `.json` upload holding the
valid JSON document `\x7b"a":1\x7d` produces the raw decoded text as
context, which differs from the claim's 2-space-indented
re-serialization. -/
theorem main4_json_upload_not_pretty_printed :
    main4_solve_question "q" (some fJson) echoUp =
      main4_get_llm_answer "q" (extract_text_from_jsonl fJson.decoded) echoUp ∧
    extract_text_from_jsonl fJson.decoded ≠
      pySlice (json_dumps_indent2 (Json.obj [("a", Json.num 1)])) 3000 := by
  exact ⟨rfl, by decide⟩

/-- Claim C6 (amended): for a `.jsonl` upload, the `main4` revision
behaves as the claim says — the context is the raw lossily decoded text
truncated to 3000 characters and invalid bytes are never fatal — but the
`main5` revision routes `.jsonl` uploads through the structured JSON
extractor: the context is the 2-space-indented re-serialization when the
whole text parses as one JSON document and the empty string otherwise. -/
theorem jsonl_upload_context_per_revision :
    ∀ (q : String) (f : UploadedFile) (up : Upstream),
      strEndsWith (pyLower f.filename) ".jsonl" = true →
      f.content_type ≠ "application/pdf" →
      main4_solve_question q (some f) up =
        main4_get_llm_answer q (pySlice f.decoded 3000) up ∧
      main5_process_file q (some f) up =
        main5_llm_response q (extract_text_from_json f.parsed) up ∧
      extract_text_from_json none = "" := by
  intro q f up hjsonl hct
  have hpdf : strEndsWith (pyLower f.filename) ".pdf" = false :=
    strEndsWith_false_of_head _ ".jsonl" ".pdf" 'l' 'f' _ _ rfl rfl rfl hjsonl
  have hctb : (f.content_type == "application/pdf") = false := by
    simp only [beq_eq_false_iff_ne, ne_eq]
    exact hct
  refine ⟨?_, ?_, rfl⟩
  · simp [main4_solve_question, main4_context, hpdf, hctb, hjsonl, extract_text_from_jsonl]
  · simp [main5_process_file, hpdf, hctb, hjsonl]

/-- Witness for the amended claim C6 at a concrete `.jsonl` upload. -/
theorem jsonl_upload_context_per_revision_witness :
    main4_solve_question "q" (some fJsonl) echoUp =
      main4_get_llm_answer "q" (pySlice fJsonl.decoded 3000) echoUp ∧
    main5_process_file "q" (some fJsonl) echoUp =
      main5_llm_response "q" (extract_text_from_json fJsonl.parsed) echoUp ∧
    extract_text_from_json none = "" :=
  jsonl_upload_context_per_revision "q" fJsonl echoUp (by decide) (by decide)

/-- Claim C6 counterexample: a two-line `.jsonl` upload is not a single
valid JSON document, so `main5` composes its prompt with an empty context
instead of the raw decoded text the claim requires. -/
theorem main5_jsonl_not_raw_text :
    main5_process_file "q" (some fJsonl) echoUp = main5_llm_response "q" "" echoUp ∧
    main5_process_file "q" (some fJsonl) echoUp ≠
      main5_llm_response "q" (pySlice fJsonl.decoded 3000) echoUp := by
  exact ⟨by decide, by decide⟩

/-- The artifact path `process_image` returns on success is never the
empty string, so the handler's `if output_path:` test passes. -/
theorem processed_path_ne_empty (fn : String) :
    ("processed_images/processed_" ++ fn) ≠ "" := by
  intro h
  have h2 : ("processed_images/processed_" ++ fn).length = ("" : String).length :=
    congrArg String.length h
  rw [String.length_append] at h2
  have h3 : ("processed_images/processed_" : String).length = 27 := rfl
  have h4 : ("" : String).length = 0 := rfl
  omega

/-- Any `main5` request whose upload has an image extension (after the
handler's lowercasing), a content type other than `application/pdf`, and
image bytes `PIL` can process, takes the image branch: the response is a
binary `image/png` `FileResponse` whose on-disk path and download filename
are `processed_` over the lowercased original filename. -/
theorem main5_image_route (q : String) (f : UploadedFile) (up : Upstream)
    (himg : (strEndsWith (pyLower f.filename) ".png" || strEndsWith (pyLower f.filename) ".jpeg" ||
             strEndsWith (pyLower f.filename) ".jpg" || strEndsWith (pyLower f.filename) ".webp") = true)
    (hct : f.content_type ≠ "application/pdf")
    (hok : f.imageOk = true) :
    main5_process_file q (some f) up =
      .fileResponse ("processed_images/processed_" ++ pyLower f.filename) "image/png"
        ("processed_" ++ pyLower f.filename) := by
  have hctb : (f.content_type == "application/pdf") = false := by
    simp only [beq_eq_false_iff_ne, ne_eq]
    exact hct
  have hexcl : strEndsWith (pyLower f.filename) ".pdf" = false ∧
      strEndsWith (pyLower f.filename) ".json" = false ∧
      strEndsWith (pyLower f.filename) ".jsonl" = false ∧
      strEndsWith (pyLower f.filename) ".txt" = false := by
    rcases Bool.or_eq_true_iff.mp himg with h | h
    rcases Bool.or_eq_true_iff.mp h with h | h
    rcases Bool.or_eq_true_iff.mp h with h | h
    · exact ⟨strEndsWith_false_of_head _ ".png" ".pdf" 'g' 'f' _ _ rfl rfl rfl h,
             strEndsWith_false_of_head _ ".png" ".json" 'g' 'n' _ _ rfl rfl rfl h,
             strEndsWith_false_of_head _ ".png" ".jsonl" 'g' 'l' _ _ rfl rfl rfl h,
             strEndsWith_false_of_head _ ".png" ".txt" 'g' 't' _ _ rfl rfl rfl h⟩
    · exact ⟨strEndsWith_false_of_head _ ".jpeg" ".pdf" 'g' 'f' _ _ rfl rfl rfl h,
             strEndsWith_false_of_head _ ".jpeg" ".json" 'g' 'n' _ _ rfl rfl rfl h,
             strEndsWith_false_of_head _ ".jpeg" ".jsonl" 'g' 'l' _ _ rfl rfl rfl h,
             strEndsWith_false_of_head _ ".jpeg" ".txt" 'g' 't' _ _ rfl rfl rfl h⟩
    · exact ⟨strEndsWith_false_of_head _ ".jpg" ".pdf" 'g' 'f' _ _ rfl rfl rfl h,
             strEndsWith_false_of_head _ ".jpg" ".json" 'g' 'n' _ _ rfl rfl rfl h,
             strEndsWith_false_of_head _ ".jpg" ".jsonl" 'g' 'l' _ _ rfl rfl rfl h,
             strEndsWith_false_of_head _ ".jpg" ".txt" 'g' 't' _ _ rfl rfl rfl h⟩
    · exact ⟨strEndsWith_false_of_head _ ".webp" ".pdf" 'p' 'f' _ _ rfl rfl rfl h,
             strEndsWith_false_of_head _ ".webp" ".json" 'p' 'n' _ _ rfl rfl rfl h,
             strEndsWith_false_of_head _ ".webp" ".jsonl" 'p' 'l' _ _ rfl rfl rfl h,
             strEndsWith_false_of_head _ ".webp" ".txt" 'p' 't' _ _ rfl rfl rfl h⟩
  obtain ⟨hpdf, hjson, hjsonl, htxt⟩ := hexcl
  simp [main5_process_file, hpdf, hctb, hjson, hjsonl, htxt, himg, hok, process_image,
        processed_path_ne_empty]

/-- Claim C8 (amended): a request whose upload has an image extension
(after the handler's lowercasing), a content type other than
`application/pdf`, and image bytes `PIL` can process, is answered with a
binary `image/png` `FileResponse` whose download filename is
`processed_` followed by the *lowercased* original filename, and the
response is the same under any two upstream LLM environments — the LLM
client is never consulted. -/
theorem main5_image_request_bypasses_llm :
    ∀ (q : String) (f : UploadedFile) (up₁ up₂ : Upstream),
      (strEndsWith (pyLower f.filename) ".png" || strEndsWith (pyLower f.filename) ".jpeg" ||
       strEndsWith (pyLower f.filename) ".jpg" || strEndsWith (pyLower f.filename) ".webp") = true →
      f.content_type ≠ "application/pdf" →
      f.imageOk = true →
      main5_process_file q (some f) up₁ =
        .fileResponse ("processed_images/processed_" ++ pyLower f.filename) "image/png"
          ("processed_" ++ pyLower f.filename) ∧
      main5_process_file q (some f) up₁ = main5_process_file q (some f) up₂ := by
  intro q f up₁ up₂ himg hct hok
  exact ⟨main5_image_route q f up₁ himg hct hok,
         (main5_image_route q f up₁ himg hct hok).trans
           (main5_image_route q f up₂ himg hct hok).symm⟩

/-- Witness for the amended claim C8 at a concrete image upload. -/
theorem main5_image_request_bypasses_llm_witness :
    main5_process_file "q" (some ⟨"photo.jpg", "image/jpeg", "", none, none, true⟩) echoUp =
      .fileResponse ("processed_images/processed_" ++ pyLower "photo.jpg") "image/png"
        ("processed_" ++ pyLower "photo.jpg") ∧
    main5_process_file "q" (some ⟨"photo.jpg", "image/jpeg", "", none, none, true⟩) echoUp =
      main5_process_file "q" (some ⟨"photo.jpg", "image/jpeg", "", none, none, true⟩)
        (fun _ => .timedOut "t") :=
  main5_image_request_bypasses_llm "q" ⟨"photo.jpg", "image/jpeg", "", none, none, true⟩
    echoUp (fun _ => .timedOut "t") (by decide) (by decide) rfl

/-- Claim C8 counterexample: an upload named `Photo.png` (ending in
`.png`) is processed successfully, yet the download name is
`processed_photo.png` — `processed_` over the lowercased name — not
`processed_Photo.png` as the claim's `processed_<original filename>`
requires. -/
theorem main5_image_download_name_lowercased :
    main5_process_file "q" (some ⟨"Photo.png", "image/png", "", none, none, true⟩) echoUp =
      .fileResponse "processed_images/processed_photo.png" "image/png"
        "processed_photo.png" ∧
    ("processed_photo.png" : String) ≠ "processed_" ++ "Photo.png" := by
  exact ⟨by decide, by decide⟩

/-- Claim C10 (confirmed): `main5.process_file` dispatches on the
lowercased declared filename, so two uploads whose filenames agree up to
case are handled identically in every path; and for *every* successfully
processed image upload, both the on-disk artifact path and the returned
download name are `processed_` followed by the lowercased original
filename (so `Photo.PNG` yields `processed_photo.png`), never the
original-cased name. -/
theorem main5_dispatch_case_insensitive :
    ∀ (q : String) (up : Upstream) (fn₁ fn₂ ct d : String) (p : Option String)
      (j : Option Json) (ok : Bool) (f : UploadedFile),
      pyLower fn₁ = pyLower fn₂ →
      (strEndsWith (pyLower f.filename) ".png" || strEndsWith (pyLower f.filename) ".jpeg" ||
       strEndsWith (pyLower f.filename) ".jpg" || strEndsWith (pyLower f.filename) ".webp") = true →
      f.content_type ≠ "application/pdf" →
      f.imageOk = true →
      main5_process_file q (some ⟨fn₁, ct, d, p, j, ok⟩) up =
        main5_process_file q (some ⟨fn₂, ct, d, p, j, ok⟩) up ∧
      main5_process_file q (some f) up =
        .fileResponse ("processed_images/processed_" ++ pyLower f.filename) "image/png"
          ("processed_" ++ pyLower f.filename) := by
  intro q up fn₁ fn₂ ct d p j ok f h himg hct hok
  refine ⟨?_, main5_image_route q f up himg hct hok⟩
  simp only [main5_process_file, h]

/-- Witness for claim C10 at the concrete filenames `Photo.PNG` and
`photo.png`, the image upload being `Photo.PNG` itself. -/
theorem main5_dispatch_case_insensitive_witness :
    main5_process_file "q2" (some ⟨"Photo.PNG", "image/png", "", none, none, true⟩) echoUp =
      main5_process_file "q2" (some ⟨"photo.png", "image/png", "", none, none, true⟩) echoUp ∧
    main5_process_file "q2" (some ⟨"Photo.PNG", "image/png", "", none, none, true⟩) echoUp =
      .fileResponse ("processed_images/processed_" ++ pyLower "Photo.PNG") "image/png"
        ("processed_" ++ pyLower "Photo.PNG") :=
  main5_dispatch_case_insensitive "q2" echoUp "Photo.PNG" "photo.png" "image/png" ""
    none none true ⟨"Photo.PNG", "image/png", "", none, none, true⟩
    (by decide) (by decide) (by decide) rfl
